import Mathlib

/-!
Verification of the security and transport core of the `Control` dead-drop
application (Rust sources `src-tauri/src/crypto.rs`, `src-tauri/src/dead_drop.rs`,
`src-tauri/src/p2p.rs`, `src/main.rs`).

Bytes are modelled as `Nat` (values intended below 256), byte buffers as
`List Nat`.  Randomness (nonces, fresh keys, random polynomial coefficients)
is passed in explicitly as parameters.  The third-party cryptographic
primitives (ChaCha20-Poly1305, AES-GCM, Argon2id, SHA-256) are not part of
the repository; they are idealized symbolically as stated in the
specification (spec section 4.1), each such definition carries a doc comment
saying so.  Everything translated from the repository's own Rust code
follows that code line by line.
-/

namespace Control

/-- Error kinds of the primitive layer, following spec section 7 and the
`anyhow` error messages in `crypto.rs` / `dead_drop.rs`. -/
inductive CryptoErr
  | authFailure
  | truncated
  | tooShort
deriving DecidableEq

/-- Modelled from the spec (section 4.1): the body of an AEAD frame
(`ciphertext_with_tag`).  The ciphertext of the idealized AEAD is an
injective encoding of the algorithm tag, the key, the nonce and the
plaintext; decryption with the same algorithm, key and nonce recovers the
plaintext and anything else is an `AuthFailure`.  The algorithm tag keeps
the ChaCha20-Poly1305 and AES-GCM instances from being crossed. -/
def sealBody (alg : Nat) (key nonce pt : List Nat) : List Nat :=
  (alg :: key.length :: (key ++ nonce)) ++ pt

/-- Modelled from the spec (section 4.1): idealized AEAD opening, the partial
inverse of `sealBody`.  Fails with `AuthFailure` unless the frame was sealed
with exactly this algorithm, key and nonce. -/
def openBody (alg : Nat) (key nonce ct : List Nat) : Except CryptoErr (List Nat) :=
  if ct.take (alg :: key.length :: (key ++ nonce)).length
      = alg :: key.length :: (key ++ nonce) then
    .ok (ct.drop (alg :: key.length :: (key ++ nonce)).length)
  else
    .error CryptoErr.authFailure

/-- Algorithm tag for the ChaCha20-Poly1305 instances of the idealized AEAD. -/
def chachaAlg : Nat := 1

/-- NONCE_SIZE constant of `crypto.rs` (12-byte AEAD nonces). -/
def NONCE_SIZE : Nat := 12

/-- Session key for file encryption, from `crypto.rs` (`struct SessionKey`,
a 32-byte ChaCha20-Poly1305 key). -/
structure SessionKey where
  key : List Nat
deriving DecidableEq

/-- Embeds the destructor that the `ZeroizeOnDrop` derive generates for
`SessionKey` in `crypto.rs`.  The derive zeroizes every field that is not
marked `zeroize(skip)`; the only field, `key`, carries exactly that marker,
so the generated destructor zeroizes nothing and the key bytes it leaves in
memory are the unchanged key bytes.  This function returns the field
contents after the destructor has run. -/
def SessionKey.dropGlue (k : SessionKey) : SessionKey := k

/-- Translation of `SessionKey::encrypt_file` (`crypto.rs`): draw a fresh
12-byte nonce (passed in explicitly here), AEAD-encrypt the data and return
`nonce || ciphertext`. -/
def SessionKey.encrypt_file (k : SessionKey) (nonce data : List Nat) : List Nat :=
  nonce ++ sealBody chachaAlg k.key nonce data

/-- Translation of `SessionKey::decrypt_file` (`crypto.rs`): reject inputs
shorter than `NONCE_SIZE`, split off the nonce, AEAD-decrypt the rest. -/
def SessionKey.decrypt_file (k : SessionKey) (data : List Nat) : Except CryptoErr (List Nat) :=
  if data.length < NONCE_SIZE then
    .error CryptoErr.tooShort
  else
    openBody chachaAlg k.key (data.take NONCE_SIZE) (data.drop NONCE_SIZE)

/-- Modelled from the spec (section 4.1): SHA-256 as an unspecified
deterministic function with 32-byte output.  Only determinism of the
derivation is used by the theorems below. -/
def sha256Hash (data : List Nat) : List Nat :=
  (data ++ List.replicate 32 0).take 32

/-- The byte-exact KDF label `b"deaddrop-message-key"` of `crypto.rs`. -/
def msgKeyLabel : List Nat := "deaddrop-message-key".toList.map Char.toNat

/-- Translation of `encrypt_message` (`crypto.rs`): derive the message key
as SHA-256 of the label followed by the shared secret, draw a fresh 12-byte
nonce (explicit parameter), return `nonce || ciphertext`. -/
def encrypt_message (shared_secret : List Nat) (nonce plaintext : List Nat) : List Nat :=
  nonce ++ sealBody chachaAlg (sha256Hash (msgKeyLabel ++ shared_secret)) nonce plaintext

/-- Translation of `decrypt_message` (`crypto.rs`): reject inputs shorter
than `NONCE_SIZE`, split off the nonce, derive the same message key,
AEAD-decrypt. -/
def decrypt_message (shared_secret : List Nat) (data : List Nat) : Except CryptoErr (List Nat) :=
  if data.length < NONCE_SIZE then
    .error CryptoErr.tooShort
  else
    openBody chachaAlg (sha256Hash (msgKeyLabel ++ shared_secret))
      (data.take NONCE_SIZE) (data.drop NONCE_SIZE)

/-- Little-endian `u32::from_le_bytes` on a 4-byte buffer, as used for the
chunk-length field in `dead_drop.rs`. -/
def fromLE4 (bytes : List Nat) : Nat :=
  match bytes with
  | [b0, b1, b2, b3] => b0 + b1 * 256 + b2 * 65536 + b3 * 16777216
  | _ => 0

/-- Translation of `stream_decrypt_file` (`dead_drop.rs`): repeatedly
`read_exact` a 4-byte little-endian length, then `read_exact` that many
bytes and AEAD-decrypt them.  `read_exact` of the length field reports
`UnexpectedEof` whenever fewer than 4 bytes remain (zero or not), and the
loop `break`s on that, terminating normally; a short read of the frame body
is an error (`Truncated`), and a chunk that fails to decrypt aborts with
the decryption error. -/
def stream_decrypt_file (key : SessionKey) (input : List Nat) : Except CryptoErr (List Nat) :=
  if _h4 : input.length < 4 then
    .ok []
  else
    if _hc : (input.drop 4).length < fromLE4 (input.take 4) then
      .error CryptoErr.truncated
    else
      match SessionKey.decrypt_file key ((input.drop 4).take (fromLE4 (input.take 4))) with
      | .error e => .error e
      | .ok pt =>
        match stream_decrypt_file key ((input.drop 4).drop (fromLE4 (input.take 4))) with
        | .error e => .error e
        | .ok tl => .ok (pt ++ tl)
termination_by input.length
decreasing_by
  simp only [List.length_drop]
  omega

/-! ### Identity store (`crypto.rs`, identity at rest) -/

/-- Error kinds of the identity loader (spec section 7): the AEAD-failure
branch of `Identity::load_from_disk` maps to `WrongPassword` (error string
"Decryption failed - wrong password?"), a decrypted scalar that is not
exactly 32 bytes to `Corrupt` ("Invalid private key length"). -/
inductive LoadErr
  | wrongPassword
  | corrupt
deriving DecidableEq

/-- Modelled from the spec (section 4.1): the Argon2id password-derived key.
The derivation is idealized as the injective pairing of the password and the
salt, so two derivations agree exactly when both inputs agree. -/
structure DerivedKey where
  password : String
  salt : String
deriving DecidableEq

/-- Modelled from the spec (section 4.1): `derive_key(password, salt)`. -/
def derive_key (password salt : String) : DerivedKey :=
  ⟨password, salt⟩

/-- Modelled from the spec (sections 3 and 4.1): the AES-GCM ciphertext of
the identity blob, idealized as a symbolic ciphertext remembering the key
and nonce it was sealed with and the enclosed plaintext. -/
structure AesCtext where
  key : DerivedKey
  nonce : List Nat
  pt : List Nat
deriving DecidableEq

/-- Modelled from the spec (section 4.1): idealized AES-GCM-256 encryption. -/
def aes_gcm_encrypt (key : DerivedKey) (nonce pt : List Nat) : AesCtext :=
  ⟨key, nonce, pt⟩

/-- Modelled from the spec (section 4.1): idealized AES-GCM-256 decryption;
succeeds exactly on the key and nonce the ciphertext was created with,
anything else is an authentication failure. -/
def aes_gcm_decrypt (key : DerivedKey) (nonce : List Nat) (ct : AesCtext) :
    Except CryptoErr (List Nat) :=
  if ct.key = key ∧ ct.nonce = nonce then .ok ct.pt else .error CryptoErr.authFailure

/-- The on-disk record written by `Identity::save_to_disk` (`crypto.rs`,
`struct StoredIdentity`): salt, 12-byte nonce, ciphertext. -/
structure StoredIdentity where
  salt : String
  nonce : List Nat
  ciphertext : AesCtext
deriving DecidableEq

/-- The long-lived identity of `crypto.rs` (`struct Identity`), reduced to
the 32-byte X25519 private scalar; the public point is a function of it. -/
structure Identity where
  private_key : List Nat
deriving DecidableEq

/-- Modelled from the spec (section 3): the public id, the base58 encoding
of the X25519 public point, an injective function of the private scalar. -/
def Identity.public_id (id : Identity) : List Nat :=
  id.private_key

/-- Translation of `Identity::save_to_disk` (`crypto.rs`): derive a key from
the password and a fresh salt (the salt and the fresh 12-byte nonce are
explicit parameters here), AES-GCM-encrypt the private scalar, store salt,
nonce and ciphertext. -/
def Identity.save_to_disk (id : Identity) (password salt : String) (nonce : List Nat) :
    StoredIdentity :=
  ⟨salt, nonce, aes_gcm_encrypt (derive_key password salt) nonce id.private_key⟩

/-- Translation of `Identity::load_from_disk` (`crypto.rs`): re-derive the
key from the supplied password and the stored salt, AES-GCM-decrypt; a
decryption failure is reported as the wrong password, a plaintext that is
not exactly 32 bytes as a corrupt record. -/
def Identity.load_from_disk (password : String) (stored : StoredIdentity) :
    Except LoadErr Identity :=
  match aes_gcm_decrypt (derive_key password stored.salt) stored.nonce stored.ciphertext with
  | .error _ => .error LoadErr.wrongPassword
  | .ok pt => if pt.length = 32 then .ok ⟨pt⟩ else .error LoadErr.corrupt

/-- Translation of `Identity::load_or_generate` (`crypto.rs`): if the
identity file exists (`disk = some stored`) load it, otherwise generate a
fresh identity (the fresh scalar, salt and nonce are explicit parameters)
and save it.  Returns the identity together with the resulting disk
contents. -/
def Identity.load_or_generate (password : String) (disk : Option StoredIdentity)
    (freshPriv : List Nat) (salt : String) (nonce : List Nat) :
    Except LoadErr (Identity × Option StoredIdentity) :=
  match disk with
  | some stored =>
    match Identity.load_from_disk password stored with
    | .ok id => .ok (id, some stored)
    | .error e => .error e
  | none =>
    .ok (⟨freshPriv⟩, some (Identity.save_to_disk ⟨freshPriv⟩ password salt nonce))

/-! ### Messaging actor (`p2p.rs`) -/

/-- Events the actor emits to the host window (`window.emit` calls in
`p2p.rs`); only the error event matters for the claims below. -/
inductive HostEvent
  | ghostError (msg : String)
deriving DecidableEq

/-- The `PendingAcks` tracker of `p2p.rs`: a map from message id to the
target public key and the enqueue timestamp, modelled as an association
list with insert-replaces semantics. -/
structure PendingAcks where
  pending : List (String × String × Nat)
deriving DecidableEq

/-- Translation of `PendingAcks::add` (`p2p.rs`): insert the message id with
the target and the current unix timestamp (explicit parameter `now`),
replacing any previous entry for that id. -/
def PendingAcks.add (pa : PendingAcks) (message_id target : String) (now : Nat) :
    PendingAcks :=
  ⟨(message_id, target, now) :: pa.pending.filter (fun e => e.1 != message_id)⟩

/-- Map lookup on the tracker (the `HashMap` read side used by
`PendingAcks::remove`). -/
def PendingAcks.lookup (pa : PendingAcks) (message_id : String) : Option (String × Nat) :=
  (pa.pending.find? (fun e => e.1 == message_id)).map (fun e => e.2)

/-- Translation of the `P2PCommand::SendMessage` arm of the event loop of
`run_p2p_actor` (`p2p.rs`): the message is first recorded in the pending
tracker, then `send_ghost_message` publishes it; if the publish fails
(outcome `sendOk = false`) a `ghost_error` event carrying "Send failed" is
emitted.  Returns the tracker and the host events the arm emitted. -/
def handle_send_message_command (pa : PendingAcks) (now : Nat)
    (target_public_key _content message_id : String) (sendOk : Bool) :
    PendingAcks × List HostEvent :=
  let pa2 := pa.add message_id target_public_key now
  if sendOk then (pa2, []) else (pa2, [HostEvent.ghostError "Send failed"])

/-! ### Host commands (`main.rs`) -/

/-- The shared application state of `main.rs` (`struct AppState`): at most
one identity and at most one command-channel sender, each behind a mutex.
Sender handles are modelled as numbers. -/
structure AppState where
  identity : Option Identity
  p2p_sender : Option Nat
deriving DecidableEq

/-- Translation of the `init_identity` command (`main.rs`): try
`load_or_generate`; on any load error, delete the existing `identity.enc`
(disk becomes empty) and run `load_or_generate` again, which now generates
and stores a fresh identity.  Stores the resulting identity in the shared
state and returns its public id.  Returns the new state, the new disk
contents and the command result. -/
def init_identity (password : String) (disk : Option StoredIdentity)
    (freshPriv : List Nat) (salt : String) (nonce : List Nat) (st : AppState) :
    AppState × Option StoredIdentity × Except String (List Nat) :=
  match Identity.load_or_generate password disk freshPriv salt nonce with
  | .ok (id, disk') => ({ st with identity := some id }, disk', .ok id.public_id)
  | .error _ =>
    match Identity.load_or_generate password none freshPriv salt nonce with
    | .ok (id, disk') => ({ st with identity := some id }, disk', .ok id.public_id)
    | .error _ => (st, none, .error "Failed to create new identity")

/-- Translation of the `start_ghost_mode` command (`main.rs`): fail if no
identity is unlocked; otherwise start the actor (`init_p2p_actor`, whose
outcome is the explicit parameter `initResult`) and store the returned
sender handle in the shared state. -/
def start_ghost_mode (st : AppState) (initResult : Except String Nat) :
    AppState × Except String String :=
  match st.identity with
  | none => (st, .error "Identity not initialized")
  | some _ =>
    match initResult with
    | .error e => (st, .error e)
    | .ok sender => ({ st with p2p_sender := some sender }, .ok "Ghost Mode activated")

/-- Translation of the `stop_ghost_mode` command (`main.rs`): clone the
stored sender out of the mutex; if there is one, send `Shutdown` on it
(outcome `sendOk`); return ok when there is no sender or the send
succeeded.  The stored sender itself is never modified. -/
def stop_ghost_mode (st : AppState) (sendOk : Bool) :
    AppState × Except String Unit :=
  match st.p2p_sender with
  | none => (st, .ok ())
  | some _ => (st, if sendOk then .ok () else .error "Failed to stop P2P")

/-! ### Dead-drop orchestrator (`dead_drop.rs`) -/

/-- Translation of the parameter validation at the top of
`create_dead_drop` (`dead_drop.rs`): reject `threshold > total_shards`,
then reject `threshold < 2`; both parameters are `u8`, modelled as
`Fin 256`.  These two checks are the first statements of the function,
before the file is touched or a key is generated. -/
def create_dead_drop_validate (threshold total_shards : Fin 256) : Except String Unit :=
  if total_shards < threshold then .error "Threshold cannot exceed total shards"
  else if threshold < 2 then .error "Threshold must be at least 2"
  else .ok ()

/-! ### Threshold splitter (the `sharks` crate as used by `dead_drop.rs`) -/

/-- Modelled from the spec (section 4.4) and the `sharks` crate linked by
`dead_drop.rs`: GF(256) addition is bytewise xor. -/
def gfAdd (a b : Nat) : Nat := a ^^^ b

/-- Multiplication by x in GF(256) with the AES reduction polynomial
(0x11b), the field used by the byte-oriented Shamir construction. -/
def xtime (a : Nat) : Nat :=
  if a < 128 then a * 2 else (a * 2) ^^^ 0x11b

/-- Russian-peasant step function for GF(256) multiplication. -/
def gfMulAux : Nat → Nat → Nat → Nat → Nat
  | 0, _, _, acc => acc
  | k + 1, a, b, acc =>
    gfMulAux k (xtime a) (b / 2) (if b % 2 = 1 then acc ^^^ a else acc)

/-- GF(256) multiplication. -/
def gfMul (a b : Nat) : Nat := gfMulAux 8 a b 0

/-- GF(256) squaring. -/
def gfSq (a : Nat) : Nat := gfMul a a

/-- GF(256) multiplicative inverse via Fermat (a^254); maps 0 to 0 exactly
like the table-based implementations. -/
def gfInv (a : Nat) : Nat :=
  gfMul (gfSq (gfSq (gfSq (gfSq (gfSq (gfSq (gfSq a)))))))
    (gfMul (gfSq (gfSq (gfSq (gfSq (gfSq (gfSq a))))))
      (gfMul (gfSq (gfSq (gfSq (gfSq (gfSq a)))))
        (gfMul (gfSq (gfSq (gfSq (gfSq a))))
          (gfMul (gfSq (gfSq (gfSq a)))
            (gfMul (gfSq (gfSq a)) (gfSq a))))))

/-- GF(256) division. -/
def gfDiv (a b : Nat) : Nat := gfMul a (gfInv b)

/-- Evaluation of a GF(256) polynomial given by its coefficient list in
ascending degree order (the secret byte is the constant coefficient). -/
def polyEval (coeffs : List Nat) (x : Nat) : Nat :=
  coeffs.foldr (fun c acc => gfAdd c (gfMul x acc)) 0

/-- One Shamir share of the `sharks` crate: an x-coordinate and, for every
byte of the secret, the corresponding polynomial value.  The share encodes
no threshold. -/
structure Share where
  x : Nat
  y : List Nat
deriving DecidableEq

/-- Modelled from the spec (section 4.4) and the `sharks` dealer as invoked
by `create_dead_drop`: for each byte `s` of the secret pick a random
polynomial with constant coefficient `s` (the `threshold - 1` random higher
coefficients for byte position `j` are `rnd j`), and hand out shares with
x-coordinates 1, 2, ..., n. -/
def shamirSplit (secret : List Nat) (rnd : Nat → List Nat) (n : Nat) : List Share :=
  let polys : List (List Nat) := secret.enum.map (fun p => p.2 :: rnd p.1)
  (List.range n).map (fun i => ⟨i + 1, polys.map (fun c => polyEval c (i + 1))⟩)

/-- Lagrange basis polynomial for x-coordinate `xi`, evaluated at 0, over
the x-coordinates of the given shares (the product over the other shares of
x_j / (x_j - x_i); subtraction in GF(256) is xor). -/
def lagrangeBasisAt0 (shares : List Share) (xi : Nat) : Nat :=
  shares.foldl
    (fun acc sj => if sj.x == xi then acc else gfMul acc (gfDiv sj.x (gfAdd sj.x xi)))
    1

/-- The `interpolate` routine of the `sharks` crate: bytewise Lagrange
interpolation of all supplied shares at x = 0. -/
def sharksInterpolate (shares : List Share) : List Nat :=
  let len := (shares.head?.map (fun s => s.y.length)).getD 0
  (List.range len).map (fun i =>
    shares.foldl
      (fun acc si => gfAdd acc (gfMul (si.y.getD i 0) (lagrangeBasisAt0 shares si.x)))
      0)

/-- Modelled from the `sharks` crate's `Sharks::recover` as invoked at
`dead_drop.rs` line 119: all shares must have the same length; the number
of distinct x-coordinates must be nonzero and at least the threshold stored
in the `Sharks` value (`retrieve_dead_drop` passes `Sharks(0)`, so that
check only rejects an empty share list); then every supplied share enters
the interpolation. -/
def sharksRecover (threshold : Nat) (shares : List Share) : Except String (List Nat) :=
  match shares with
  | [] => .error "Not enough shares to recover original secret"
  | s0 :: rest =>
    if rest.all (fun sh => sh.y.length == s0.y.length) then
      if ((s0 :: rest).map Share.x).dedup.length < threshold then
        .error "Not enough shares to recover original secret"
      else
        .ok (sharksInterpolate (s0 :: rest))
    else
      .error "All shares must have the same length"

/-- Concrete 32-byte secret used to evaluate the splitter: bytes 0..31. -/
def c1secret : List Nat := List.range 32

/-- Concrete dealt shares: threshold 2, three shares, with the random
linear coefficient for byte position j fixed to `j % 255 + 1` (nonzero). -/
def c1shares : List Share := shamirSplit c1secret (fun j => [j % 255 + 1]) 3

/-- Decidable equality of `Except` results, used to evaluate the
definitions above on concrete inputs. -/
instance {e a : Type} [DecidableEq e] [DecidableEq a] : DecidableEq (Except e a) := fun x y =>
  match x, y with
  | .ok u, .ok v =>
    if h : u = v then .isTrue (congrArg Except.ok h)
    else .isFalse (fun hh => h (Except.ok.inj hh))
  | .error u, .error v =>
    if h : u = v then .isTrue (congrArg Except.error h)
    else .isFalse (fun hh => h (Except.error.inj hh))
  | .ok _, .error _ => .isFalse (fun hh => Except.noConfusion hh)
  | .error _, .ok _ => .isFalse (fun hh => Except.noConfusion hh)

/-- Round trip of the idealized AEAD: opening a sealed frame with the same
algorithm, key and nonce recovers the plaintext. -/
theorem openBody_sealBody (alg : Nat) (key nonce pt : List Nat) :
    openBody alg key nonce (sealBody alg key nonce pt) = .ok pt := by
  unfold openBody sealBody
  rw [List.take_left, if_pos rfl, List.drop_left]

/-! ### Claims -/

/-- C1: for a 32-byte secret split with threshold 2 into 3 shares, `recover`
as invoked by `retrieve_dead_drop` (`Sharks(0).recover`) returns the secret
on 2 and on 3 shares, but on a single share — fewer than the threshold — it
does not fail with `InsufficientShares`: it returns a value, and that value
is not the secret.  The threshold is not encoded in the shares, so the
claimed sub-threshold failure cannot happen. -/
theorem c1_threshold_not_enforced :
    sharksRecover 0 (c1shares.take 2) = .ok c1secret ∧
    sharksRecover 0 c1shares = .ok c1secret ∧
    (sharksRecover 0 (c1shares.take 1)).toOption ≠ none ∧
    sharksRecover 0 (c1shares.take 1) ≠ .ok c1secret := by
  refine ⟨by decide, by decide, by decide, by decide⟩

/-- C2 counterexample: a `SendMessage` command whose publish call fails
still leaves an entry for the message id in the pending-receipts map,
contradicting the claim that no entry is present after the command is
handled. -/
theorem c2_counterexample :
    (handle_send_message_command ⟨[]⟩ 5 "target" "hello" "msg-1" false).1.lookup "msg-1"
      = some ("target", 5) := by
  decide

/-- C2 (amended): handling a `SendMessage` command records the pending
entry unconditionally, before the publish call; when the publish fails the
send is reported as failed through a `ghost_error` event, but the entry
remains in the map. -/
theorem c2_amended (pa : PendingAcks) (now : Nat) (target content mid : String) (ok : Bool) :
    (handle_send_message_command pa now target content mid ok).1.lookup mid
        = some (target, now) ∧
    (handle_send_message_command pa now target content mid ok).2
        = (if ok then [] else [HostEvent.ghostError "Send failed"]) := by
  cases ok <;>
    simp [handle_send_message_command, PendingAcks.add, PendingAcks.lookup, List.find?]

/-- C3: saving an identity under password `w` and loading it with any other
password `w'` fails with `WrongPassword`; no identity value is produced
(the result is an error). -/
theorem c3_wrong_password (w w' salt : String) (nonce priv : List Nat) (h : w ≠ w') :
    Identity.load_from_disk w' (Identity.save_to_disk ⟨priv⟩ w salt nonce)
      = .error LoadErr.wrongPassword := by
  simp [Identity.load_from_disk, Identity.save_to_disk, aes_gcm_decrypt, aes_gcm_encrypt,
    derive_key, DerivedKey.mk.injEq, h]

/-- C3 witness: loading with "b" what was saved under "a" fails with
`WrongPassword`. -/
theorem c3_wrong_password_witness :
    Identity.load_from_disk "b"
        (Identity.save_to_disk ⟨List.replicate 32 0⟩ "a" "salt" (List.replicate 12 0))
      = .error LoadErr.wrongPassword :=
  c3_wrong_password "a" "b" "salt" (List.replicate 12 0) (List.replicate 32 0) (by decide)

/-- C4: the destructor the `ZeroizeOnDrop` derive generates for
`SessionKey` leaves the key bytes unchanged (the only field is marked
`zeroize(skip)`), so after destruction the 32 key bytes are not zero —
contradicting the claim and the code's own comment. -/
theorem c4_drop_does_not_zeroize :
    (SessionKey.dropGlue ⟨List.replicate 32 7⟩).key ≠ List.replicate 32 0 := by
  decide

/-- C5 counterexample: a ciphertext stream consisting of a single leftover
byte at a position where a length field is expected terminates normally
with empty output instead of failing with `Truncated`. -/
theorem c5_counterexample :
    stream_decrypt_file ⟨List.replicate 32 0⟩ [7] = .ok [] := by
  rw [stream_decrypt_file]
  simp

/-- C5 (amended): streaming decryption reads a 4-byte little-endian length
and then exactly that many frame bytes, repeating; a read at the length
position that yields fewer than 4 bytes — zero or 1 to 3 leftover bytes —
terminates normally; a short read in the middle of a frame fails with
`Truncated`; and a chunk-decryption failure aborts with that error. -/
theorem c5_amended :
    (∀ (key : SessionKey) (input : List Nat), input.length < 4 →
        stream_decrypt_file key input = .ok []) ∧
    (∀ (key : SessionKey) (sz rest : List Nat), sz.length = 4 →
        rest.length < fromLE4 sz →
        stream_decrypt_file key (sz ++ rest) = .error CryptoErr.truncated) ∧
    (∀ (key : SessionKey) (sz rest : List Nat), sz.length = 4 →
        fromLE4 sz ≤ rest.length →
        stream_decrypt_file key (sz ++ rest)
          = (SessionKey.decrypt_file key (rest.take (fromLE4 sz))).bind
              (fun pt => Except.map (fun tl => pt ++ tl)
                (stream_decrypt_file key (rest.drop (fromLE4 sz))))) := by
  refine ⟨?_, ?_, ?_⟩
  · intro key input h
    rw [stream_decrypt_file]
    simp [h]
  · intro key sz rest hsz hlt
    have h4 : ¬ (sz ++ rest).length < 4 := by
      rw [List.length_append, hsz]; omega
    rw [stream_decrypt_file]
    simp only [List.take_left' hsz, List.drop_left' hsz]
    rw [dif_neg h4, dif_pos hlt]
  · intro key sz rest hsz hge
    have h4 : ¬ (sz ++ rest).length < 4 := by
      rw [List.length_append, hsz]; omega
    have hc : ¬ rest.length < fromLE4 sz := by omega
    rw [stream_decrypt_file]
    simp only [List.take_left' hsz, List.drop_left' hsz]
    rw [dif_neg h4, dif_neg hc]
    rcases hdec : SessionKey.decrypt_file key (rest.take (fromLE4 sz)) with e | pt
    · simp [Except.bind]
    · rcases hrec : stream_decrypt_file key (rest.drop (fromLE4 sz)) with e | tl <;>
        simp [Except.bind, Except.map]

/-- C5 (amended) witness: the three behaviors at concrete inputs — one
leftover byte terminates normally, a declared 1-byte frame with no body is
`Truncated`, and a complete frame unfolds to chunk decryption. -/
theorem c5_amended_witness :
    stream_decrypt_file ⟨List.replicate 32 0⟩ [7, 7] = .ok [] ∧
    stream_decrypt_file ⟨List.replicate 32 0⟩ ([1, 0, 0, 0] ++ []) = .error CryptoErr.truncated ∧
    stream_decrypt_file ⟨List.replicate 32 0⟩ ([2, 0, 0, 0] ++ [5, 6])
      = (SessionKey.decrypt_file ⟨List.replicate 32 0⟩ ([5, 6].take (fromLE4 [2, 0, 0, 0]))).bind
          (fun pt => Except.map (fun tl => pt ++ tl)
            (stream_decrypt_file ⟨List.replicate 32 0⟩ ([5, 6].drop (fromLE4 [2, 0, 0, 0])))) :=
  ⟨c5_amended.1 _ [7, 7] (by decide),
   c5_amended.2.1 _ [1, 0, 0, 0] [] (by decide) (by decide),
   c5_amended.2.2 _ [2, 0, 0, 0] [5, 6] (by decide) (by decide)⟩

/-- C6: AEAD decryption inverts AEAD encryption for both the session-key
file frames and the shared-secret message frames, for every key, shared
secret, plaintext and well-formed 12-byte nonce. -/
theorem c6_aead_roundtrip (k : SessionKey) (secret nonce data pt : List Nat)
    (h : nonce.length = 12) :
    SessionKey.decrypt_file k (SessionKey.encrypt_file k nonce data) = .ok data ∧
    decrypt_message secret (encrypt_message secret nonce pt) = .ok pt := by
  constructor
  · have hlen : ¬ (nonce ++ sealBody chachaAlg k.key nonce data).length < NONCE_SIZE := by
      simp only [List.length_append, h, NONCE_SIZE]; omega
    rw [SessionKey.encrypt_file, SessionKey.decrypt_file, if_neg hlen]
    have h12 : nonce.length = NONCE_SIZE := by rw [h]; rfl
    rw [List.take_left' h12, List.drop_left' h12, openBody_sealBody]
  · have hlen : ¬ (nonce ++ sealBody chachaAlg (sha256Hash (msgKeyLabel ++ secret)) nonce pt).length
        < NONCE_SIZE := by
      simp only [List.length_append, h, NONCE_SIZE]; omega
    rw [encrypt_message, decrypt_message, if_neg hlen]
    have h12 : nonce.length = NONCE_SIZE := by rw [h]; rfl
    rw [List.take_left' h12, List.drop_left' h12, openBody_sealBody]

/-- C6 witness: the round trip at a concrete key, secret, nonce and
plaintext. -/
theorem c6_aead_roundtrip_witness :
    SessionKey.decrypt_file ⟨List.replicate 32 4⟩
        (SessionKey.encrypt_file ⟨List.replicate 32 4⟩ (List.replicate 12 0) [1, 2, 3])
      = .ok [1, 2, 3] ∧
    decrypt_message (List.replicate 32 5)
        (encrypt_message (List.replicate 32 5) (List.replicate 12 0) [9])
      = .ok [9] :=
  c6_aead_roundtrip ⟨List.replicate 32 4⟩ (List.replicate 32 5) (List.replicate 12 0)
    [1, 2, 3] [9] (by decide)

/-- C7: the validation at the top of `create_dead_drop` succeeds exactly
when `2 ≤ t ≤ n` and fails with a parameter error exactly when `t < 2` or
`t > n`; both parameters are `u8` values, so `n ≤ 255` always. -/
theorem c7_validate_iff (t n : Fin 256) :
    (create_dead_drop_validate t n = .ok () ↔ 2 ≤ t.val ∧ t.val ≤ n.val) ∧
    ((∃ e, create_dead_drop_validate t n = .error e) ↔ (t.val < 2 ∨ n.val < t.val)) := by
  have h2v : (2 : Fin 256).val = 2 := rfl
  unfold create_dead_drop_validate
  rcases lt_or_le n t with h1 | h1
  · rw [if_pos h1]
    rw [Fin.lt_def] at h1
    refine ⟨⟨fun hh => Except.noConfusion hh, fun hh => ?_⟩,
            ⟨fun _ => Or.inr h1, fun _ => ⟨_, rfl⟩⟩⟩
    exact absurd hh (by omega)
  · rw [if_neg (not_lt.mpr h1)]
    rw [Fin.le_def] at h1
    rcases lt_or_le t 2 with h2 | h2
    · rw [if_pos h2]
      rw [Fin.lt_def, h2v] at h2
      refine ⟨⟨fun hh => Except.noConfusion hh, fun hh => ?_⟩,
              ⟨fun _ => Or.inl h2, fun _ => ⟨_, rfl⟩⟩⟩
      exact absurd hh (by omega)
    · rw [if_neg (not_lt.mpr h2)]
      rw [Fin.le_def, h2v] at h2
      refine ⟨⟨fun _ => ⟨h2, h1⟩, fun _ => rfl⟩,
              ⟨fun hh => ?_, fun hh => ?_⟩⟩
      · obtain ⟨e, he⟩ := hh
        exact Except.noConfusion he
      · exact absurd hh (by omega)

/-- C7 witness: `t = 2, n = 3` validates; `t = 1, n = 3` is rejected. -/
theorem c7_validate_iff_witness :
    create_dead_drop_validate 2 3 = .ok () ∧
    (∃ e, create_dead_drop_validate 1 3 = .error e) :=
  ⟨(c7_validate_iff 2 3).1.mpr (by decide), (c7_validate_iff 1 3).2.mpr (by decide)⟩

/-- C8 counterexample: after a successful `stop_ghost_mode` on a state that
holds a sender handle, the shared state still holds that sender handle,
contradicting the claim that it is cleared on shutdown. -/
theorem c8_counterexample :
    (stop_ghost_mode ⟨some ⟨List.replicate 32 1⟩, some 7⟩ true).1.p2p_sender = some 7 ∧
    (stop_ghost_mode ⟨some ⟨List.replicate 32 1⟩, some 7⟩ true).1.p2p_sender ≠ none := by
  exact ⟨rfl, by decide⟩

/-- C8 (amended): the stored sender is written when the actor starts
(`start_ghost_mode` with an unlocked identity stores the new sender
handle), but `stop_ghost_mode` leaves the shared state completely
unchanged — the sender remains stored after shutdown. -/
theorem c8_amended :
    (∀ (st : AppState) (ok : Bool), (stop_ghost_mode st ok).1 = st) ∧
    (∀ (st : AppState) (idv : Identity) (sender : Nat), st.identity = some idv →
        (start_ghost_mode st (.ok sender)).1.p2p_sender = some sender) := by
  constructor
  · intro st ok
    rcases st with ⟨idf, sf⟩
    cases sf <;> rfl
  · intro st idv sender h
    rcases st with ⟨idf, sf⟩
    cases h
    rfl

/-- C8 (amended) witness: the two conjuncts at a concrete state. -/
theorem c8_amended_witness :
    (stop_ghost_mode ⟨some ⟨List.replicate 32 1⟩, some 7⟩ true).1
        = ⟨some ⟨List.replicate 32 1⟩, some 7⟩ ∧
    (start_ghost_mode ⟨some ⟨List.replicate 32 1⟩, none⟩ (.ok 3)).1.p2p_sender = some 3 :=
  ⟨c8_amended.1 ⟨some ⟨List.replicate 32 1⟩, some 7⟩ true,
   c8_amended.2 ⟨some ⟨List.replicate 32 1⟩, none⟩ ⟨List.replicate 32 1⟩ 3 rfl⟩

/-- C9: when an identity file exists but loading it fails — wrong password
or tampered blob — `init_identity` does not return the load error: the
stored file is deleted and replaced by a fresh identity encrypted under the
supplied password, the fresh identity is stored in the shared state, and
its public id is returned. -/
theorem c9_replaces_identity (password : String) (stored : StoredIdentity)
    (freshPriv : List Nat) (salt : String) (nonce : List Nat) (st : AppState)
    (h : ∃ e, Identity.load_from_disk password stored = .error e) :
    init_identity password (some stored) freshPriv salt nonce st
      = ({ st with identity := some ⟨freshPriv⟩ },
         some (Identity.save_to_disk ⟨freshPriv⟩ password salt nonce),
         .ok (Identity.public_id ⟨freshPriv⟩)) := by
  obtain ⟨e, he⟩ := h
  simp [init_identity, Identity.load_or_generate, he]

/-- C9 witness: `init_identity` with the wrong password "wrong" over a
store written under "right" succeeds and replaces the stored identity. -/
theorem c9_replaces_identity_witness :
    init_identity "wrong"
        (some (Identity.save_to_disk ⟨List.replicate 32 1⟩ "right" "s" (List.replicate 12 0)))
        (List.replicate 32 2) "s2" (List.replicate 12 3) ⟨none, none⟩
      = (⟨some ⟨List.replicate 32 2⟩, none⟩,
         some (Identity.save_to_disk ⟨List.replicate 32 2⟩ "wrong" "s2" (List.replicate 12 3)),
         .ok (Identity.public_id ⟨List.replicate 32 2⟩)) :=
  c9_replaces_identity "wrong"
    (Identity.save_to_disk ⟨List.replicate 32 1⟩ "right" "s" (List.replicate 12 0))
    (List.replicate 32 2) "s2" (List.replicate 12 3) ⟨none, none⟩
    ⟨LoadErr.wrongPassword, by decide⟩

/-- C10: calling `stop_ghost_mode` when no sender handle is stored returns
ok and leaves the application state unchanged. -/
theorem c10_stop_without_start (st : AppState) (ok : Bool) (h : st.p2p_sender = none) :
    stop_ghost_mode st ok = (st, .ok ()) := by
  rcases st with ⟨idf, sf⟩
  cases h
  rfl

/-- C10 witness: `stop_ghost_mode` on the initial state returns ok with the
state unchanged. -/
theorem c10_stop_without_start_witness :
    stop_ghost_mode ⟨none, none⟩ false = (⟨none, none⟩, .ok ()) :=
  c10_stop_without_start ⟨none, none⟩ false rfl

end Control

